import Mathlib

/-!
# endless (Windows build): signal dispatcher and the two serving entry points

A shallow embedding of `const_windows.go`:

* `HookableSignals`, `SignalMap`           (lines 14-24)
* `endlessServer.ListenAndServe`           (lines 31-50)
* `endlessServer.ListenAndServeTLS`        (lines 63-96)
* `endlessServer.handleSignals`            (lines 102-132)

The methods that the file calls but does not define (`signalHooks`, `fork`,
`shutdown`, `getListener`, `BeforeBegin`, `Serve`) and the library call
`tls.LoadX509KeyPair` are parameters, collected in `Env`.  Every call, log line
and field assignment made by the embedded code is appended to an event trace,
so that ordering properties can be stated.  `tls.Config` objects and the backing
arrays of `[]tls.Certificate` live in an explicit heap, so that the difference
between writing to the caller's configuration and writing to a copy is visible.
-/

namespace Endless

/-! ## Data model -/

/-- An `os.Signal` value, identified by its `syscall.Signal` number. -/
structure Signal where
  num : Nat
deriving DecidableEq

/-- The constant `syscall.SIGHUP` (Windows value 0x1). -/
def SIGHUP : Signal := ⟨1⟩

/-- The constant `syscall.SIGINT` (Windows value 0x2). -/
def SIGINT : Signal := ⟨2⟩

/-- The constant `syscall.SIGTERM` (Windows value 0xf). -/
def SIGTERM : Signal := ⟨15⟩

/-- The package variable `HookableSignals` of the Windows build (lines 14-18). -/
def HookableSignals : List Signal := [SIGHUP, SIGINT, SIGTERM]

/-- The package variable `SignalMap` (lines 20-24): a map from signal to a list
of hook functions (hooks are named by numbers); three keys, each with an empty list. -/
def SignalMap : List (Signal × List Nat) := [(SIGHUP, []), (SIGINT, []), (SIGTERM, [])]

/-- Modelled from the spec: the two dispatch phases (pre-dispatch and
post-dispatch); the constants `PRE_SIGNAL` and `POST_SIGNAL` used by
`handleSignals` are declared outside `const_windows.go`. -/
inductive Phase where
  | PRE_SIGNAL
  | POST_SIGNAL
deriving DecidableEq

/-- A Go `error` value that is not nil, identified by its message. -/
abbrev Err := String

/-- A `tls.Certificate` value, as an uninterpreted token; the zero value is token 0. -/
structure Certificate where
  token : Nat
deriving DecidableEq

/-- The zero value `tls.Certificate{}`. -/
def Certificate.zero : Certificate := ⟨0⟩

/-- A slice header of type `[]tls.Certificate`: backing array, offset, length. -/
structure CertSlice where
  arr : Nat
  off : Nat
  len : Nat
deriving DecidableEq

/-- A `tls.Config` value.  `NextProtos` and `Certificates` are `none` for a nil
slice; `others` stands for all remaining fields, which the code only copies. -/
structure Config where
  NextProtos : Option (List String)
  Certificates : Option CertSlice
  others : Nat
deriving DecidableEq

/-- The zero value `tls.Config{}`. -/
def Config.zero : Config := ⟨none, none, 0⟩

/-- The heap: `tls.Config` objects and backing arrays of certificate slices.
A pointer is an index; allocation appends. -/
structure Heap where
  configs : List Config
  certArrays : List (List Certificate)
deriving DecidableEq

/-- Dereference of a `*tls.Config`. -/
def Heap.loadConfig (h : Heap) (p : Nat) : Config := h.configs.getD p Config.zero

/-- Assignment through a `*tls.Config`. -/
def Heap.storeConfig (h : Heap) (p : Nat) (c : Config) : Heap :=
  { h with configs := h.configs.set p c }

/-- Allocation of a new `tls.Config` object; returns the heap and the pointer. -/
def Heap.allocConfig (h : Heap) (c : Config) : Heap × Nat :=
  ({ h with configs := h.configs ++ [c] }, h.configs.length)

/-- Allocation of a backing array of certificates; returns the heap and the array. -/
def Heap.allocCerts (h : Heap) (cs : List Certificate) : Heap × Nat :=
  ({ h with certArrays := h.certArrays ++ [cs] }, h.certArrays.length)

/-- Element assignment `s[i] = c` on a certificate slice. -/
def Heap.storeCert (h : Heap) (s : CertSlice) (i : Nat) (c : Certificate) : Heap :=
  { h with certArrays := h.certArrays.set s.arr ((h.certArrays.getD s.arr []).set (s.off + i) c) }

/-- The elements of a certificate slice. -/
def Heap.certsOf (h : Heap) (s : CertSlice) : List Certificate :=
  ((h.certArrays.getD s.arr []).drop s.off).take s.len

/-- A `net.Listener` value: one returned by `getListener`, one wrapped by
`newEndlessListener(l, srv)`, or one built by `tls.NewListener(inner, config)`,
which keeps the pointer to its configuration. -/
inductive Listener where
  | net (id : Nat)
  | endless (l : Listener)
  | tls (inner : Listener) (config : Nat)
deriving DecidableEq

/-- The fields of `endlessServer` that `const_windows.go` reads or writes;
`rest` holds everything else (lifecycle state, hook table, signal channel, the
embedded `http.Server`), which only the methods defined elsewhere touch. -/
structure endlessServer (σ : Type) where
  Addr : String
  TLSConfig : Option Nat
  EndlessListener : Option Listener
  tlsInnerListener : Option Listener
  rest : σ

/-- An operand of a log call. -/
inductive LogArg where
  | str (s : String)
  | int (n : Nat)
  | sig (s : Signal)
  | err (e : Err)
deriving DecidableEq

/-- What the embedded code does, in program order. -/
inductive Event where
  | notify (sigs : List Signal)
  | signalHooks (ppFlag : Phase) (sig : Signal)
  | fork
  | shutdown
  | logPrintln (args : List LogArg)
  | logPrintf (format : String) (args : List LogArg)
  | goHandleSignals
  | getListener (addr : String)
  | LoadX509KeyPair (certFile keyFile : String)
  | setEndlessListener (l : Listener)
  | setTlsInnerListener (l : Listener)
  | BeforeBegin (addr : String)
  | Serve
deriving DecidableEq

/-- The methods and library functions that `const_windows.go` calls but does not
define.  A method reads the server and the heap and returns the new value of
`rest` (and its Go results). -/
structure Env (σ : Type) where
  hookableSignals : List Signal
  pid : Nat
  signalHooks : Phase → Signal → endlessServer σ → Heap → σ
  fork : endlessServer σ → Heap → σ × Option Err
  shutdown : endlessServer σ → Heap → σ
  getListener : String → endlessServer σ → Heap → σ × Except Err Listener
  BeforeBegin : String → endlessServer σ → Heap → σ
  Serve : endlessServer σ → Heap → σ × Option Err
  LoadX509KeyPair : String → String → Certificate × Option Err

/-- The state of the program: server, heap and the trace of events so far. -/
structure World (σ : Type) where
  srv : endlessServer σ
  heap : Heap
  trace : List Event

/-- Append one event to the trace. -/
def World.emit {σ : Type} (w : World σ) (e : Event) : World σ :=
  { w with trace := w.trace ++ [e] }

/-- Replace the part of the server owned by the methods defined elsewhere. -/
def World.setRest {σ : Type} (w : World σ) (r : σ) : World σ :=
  { w with srv := { w.srv with rest := r } }

/-- The events added between two worlds. -/
def newEvents {σ : Type} (w w' : World σ) : List Event :=
  w'.trace.drop w.trace.length

/-! ## handleSignals (lines 102-132) -/

/-- The call `srv.signalHooks(ppFlag, sig)`. -/
def callSignalHooks {σ : Type} (env : Env σ) (ppFlag : Phase) (sig : Signal)
    (w : World σ) : World σ :=
  (w.emit (Event.signalHooks ppFlag sig)).setRest (env.signalHooks ppFlag sig w.srv w.heap)

/-- The `switch sig` statement of `handleSignals` (lines 114-129). -/
def handleSignalsSwitch {σ : Type} (env : Env σ) (sig : Signal) (w : World σ) : World σ :=
  if sig = SIGHUP then
    let w1 := w.emit (Event.logPrintln [LogArg.int env.pid, LogArg.str "Received SIGHUP. forking."])
    let r := env.fork w1.srv w1.heap
    let w2 := (w1.emit Event.fork).setRest r.1
    match r.2 with
    | some err => w2.emit (Event.logPrintln [LogArg.str "Fork err:", LogArg.err err])
    | none => w2
  else if sig = SIGINT then
    let w1 := w.emit (Event.logPrintln [LogArg.int env.pid, LogArg.str "Received SIGINT."])
    (w1.emit Event.shutdown).setRest (env.shutdown w1.srv w1.heap)
  else if sig = SIGTERM then
    let w1 := w.emit (Event.logPrintln [LogArg.int env.pid, LogArg.str "Received SIGTERM."])
    (w1.emit Event.shutdown).setRest (env.shutdown w1.srv w1.heap)
  else
    w.emit (Event.logPrintf "Received %v: nothing i care about...\n" [LogArg.sig sig])

/-- One iteration of the `for` loop of `handleSignals` (lines 112-130), for the
signal `sig` received from `srv.sigChan`. -/
def handleSignalsStep {σ : Type} (env : Env σ) (sig : Signal) (w : World σ) : World σ :=
  callSignalHooks env Phase.POST_SIGNAL sig
    (handleSignalsSwitch env sig (callSignalHooks env Phase.PRE_SIGNAL sig w))

/-- The loop of `handleSignals` over the signals delivered so far. -/
def handleSignalsLoop {σ : Type} (env : Env σ) : List Signal → World σ → World σ
  | [], w => w
  | sig :: sigs, w => handleSignalsLoop env sigs (handleSignalsStep env sig w)

/-- The method `handleSignals`, run on a finite sequence of deliveries on
`srv.sigChan`: `signal.Notify`, then the loop (which never returns). -/
def handleSignals {σ : Type} (env : Env σ) (sigs : List Signal) (w : World σ) : World σ :=
  handleSignalsLoop env sigs (w.emit (Event.notify env.hookableSignals))

/-! ## ListenAndServe (lines 31-50) -/

/-- The method `ListenAndServe`; the result is the named return value `err`.
`go srv.handleSignals()` is recorded as an event; the dispatcher runs elsewhere. -/
def ListenAndServe {σ : Type} (env : Env σ) (w : World σ) : World σ × Option Err :=
  let addr := if w.srv.Addr = "" then ":http" else w.srv.Addr
  let w1 := w.emit Event.goHandleSignals
  let r := env.getListener addr w1.srv w1.heap
  let w2 := (w1.emit (Event.getListener addr)).setRest r.1
  match r.2 with
  | Except.error err => (w2.emit (Event.logPrintln [LogArg.err err]), some err)
  | Except.ok l =>
    let el := Listener.endless l
    let w3 : World σ :=
      { (w2.emit (Event.setEndlessListener el)) with
        srv := { w2.srv with EndlessListener := some el } }
    let w4 := (w3.emit (Event.BeforeBegin w3.srv.Addr)).setRest
      (env.BeforeBegin w3.srv.Addr w3.srv w3.heap)
    let s := env.Serve w4.srv w4.heap
    ((w4.emit Event.Serve).setRest s.1, s.2)

/-! ## ListenAndServeTLS (lines 63-96) -/

/-- Lines 69-78 of `ListenAndServeTLS`: build the private configuration and load
the key pair into it.  Returns the heap, the pointer `config`, and the results
of `tls.LoadX509KeyPair`. -/
def tlsPrepareConfig {σ : Type} (env : Env σ) (certFile keyFile : String)
    (srv : endlessServer σ) (h : Heap) : Heap × Nat × Certificate × Option Err :=
  -- config := &tls.Config{}
  let a := h.allocConfig Config.zero
  let config := a.2
  -- if srv.TLSConfig != nil { *config = *srv.TLSConfig }
  let h1 := match srv.TLSConfig with
    | some p => a.1.storeConfig config (a.1.loadConfig p)
    | none => a.1
  -- if config.NextProtos == nil { config.NextProtos = []string{"http/1.1"} }
  let h2 := match (h1.loadConfig config).NextProtos with
    | none => h1.storeConfig config { h1.loadConfig config with NextProtos := some ["http/1.1"] }
    | some _ => h1
  -- config.Certificates = make([]tls.Certificate, 1)
  let b := h2.allocCerts [Certificate.zero]
  let s : CertSlice := ⟨b.2, 0, 1⟩
  let h3 := b.1.storeConfig config { b.1.loadConfig config with Certificates := some s }
  -- config.Certificates[0], err = tls.LoadX509KeyPair(certFile, keyFile)
  let r := env.LoadX509KeyPair certFile keyFile
  -- (the slice just assigned is read back; a nil slice cannot occur here)
  let h4 := match (h3.loadConfig config).Certificates with
    | some s0 => h3.storeCert s0 0 r.1
    | none => h3
  (h4, config, r.1, r.2)

/-- The method `ListenAndServeTLS`; the result is the named return value `err`. -/
def ListenAndServeTLS {σ : Type} (env : Env σ) (certFile keyFile : String)
    (w : World σ) : World σ × Option Err :=
  let addr := if w.srv.Addr = "" then ":https" else w.srv.Addr
  let c := tlsPrepareConfig env certFile keyFile w.srv w.heap
  let config := c.2.1
  let w0 : World σ := { (w.emit (Event.LoadX509KeyPair certFile keyFile)) with heap := c.1 }
  match c.2.2.2 with
  | some err => (w0, some err)
  | none =>
    let w1 := w0.emit Event.goHandleSignals
    let r := env.getListener addr w1.srv w1.heap
    let w2 := (w1.emit (Event.getListener addr)).setRest r.1
    match r.2 with
    | Except.error err => (w2.emit (Event.logPrintln [LogArg.err err]), some err)
    | Except.ok l =>
      let inner := Listener.endless l
      let w3 : World σ :=
        { (w2.emit (Event.setTlsInnerListener inner)) with
          srv := { w2.srv with tlsInnerListener := some inner } }
      let tl := Listener.tls inner config
      let w4 : World σ :=
        { (w3.emit (Event.setEndlessListener tl)) with
          srv := { w3.srv with EndlessListener := some tl } }
      let w5 := w4.emit (Event.logPrintln [LogArg.int env.pid, LogArg.str w4.srv.Addr])
      let s := env.Serve w5.srv w5.heap
      ((w5.emit Event.Serve).setRest s.1, s.2)

/-! ## Trace projections and the expected traces -/

/-- The events of the dispatcher proper: calls of `signalHooks`, `fork`, `shutdown`. -/
def isDispatchEvent : Event → Bool
  | Event.signalHooks _ _ => true
  | Event.fork => true
  | Event.shutdown => true
  | _ => false

/-- The trace restricted to the dispatcher events (log lines dropped). -/
def dispatchEvents (t : List Event) : List Event := t.filter isDispatchEvent

/-- The built-in action the spec gives for a signal: the handoff for the reload
signal, the shutdown for the two terminate signals, nothing otherwise. -/
def builtinAction (sig : Signal) : List Event :=
  if sig = SIGHUP then [Event.fork]
  else if sig = SIGINT ∨ sig = SIGTERM then [Event.shutdown]
  else []

/-- The trace the spec gives for one delivery: pre hooks, built-in action, post hooks. -/
def deliveryTrace (sig : Signal) : List Event :=
  [Event.signalHooks Phase.PRE_SIGNAL sig] ++ builtinAction sig ++
    [Event.signalHooks Phase.POST_SIGNAL sig]

/-- The trace the spec gives for a sequence of deliveries: the per-delivery
traces, one after the other, in delivery order. -/
def deliveriesTrace : List Signal → List Event
  | [] => []
  | sig :: sigs => deliveryTrace sig ++ deliveriesTrace sigs

/-- The address the doc comments of the entry points give: `srv.Addr`, or the
default when `srv.Addr` is blank. -/
def addrOr (dflt : String) (addr : String) : String := if addr = "" then dflt else addr

/-- The configuration of the caller as `ListenAndServeTLS` reads it: the object
`srv.TLSConfig` points to, or the zero value when the pointer is nil. -/
def userConfig {σ : Type} (srv : endlessServer σ) (h : Heap) : Config :=
  match srv.TLSConfig with
  | some p => h.loadConfig p
  | none => Config.zero

/-- The protocol list expected for a TLS listener: the list of the caller when
there is one, the single protocol "http/1.1" otherwise. -/
def expectedNextProtos (u : Config) : List String :=
  match u.NextProtos with
  | some ps => ps
  | none => ["http/1.1"]

/-- The private configuration expected for a TLS listener: the configuration of
the caller, with the protocol list defaulted and a one-element certificate slice
on the backing array `arr`. -/
def privateConfig (u : Config) (arr : Nat) : Config :=
  { u with NextProtos := some (expectedNextProtos u), Certificates := some ⟨arr, 0, 1⟩ }

/-! ## A hook table and a sample server, used to instantiate the parameters -/

/-- Modelled from the spec: the signal hook table and the method `signalHooks`,
which are declared outside `const_windows.go`.  The table maps a phase and a
signal identity to an ordered list of hooks (hooks are named by numbers, as in
`SignalMap`); `invoked` records every hook run, in order; `inner` is the rest of
the server state. -/
structure Hooked (τ : Type) where
  SignalHooks : Phase → Signal → List Nat
  invoked : List (Phase × Signal × Nat)
  inner : τ

/-- Modelled from the spec: `signalHooks(ppFlag, sig)` invokes, in order, all
hooks registered in the table for that phase and signal identity; a signal with
no registered hook has none to run.  `runHook` is the body of a hook. -/
def signalHooks {τ : Type} (runHook : Nat → τ → τ) (ppFlag : Phase) (sig : Signal)
    (s : Hooked τ) : Hooked τ :=
  (s.SignalHooks ppFlag sig).foldl
    (fun acc h => { acc with invoked := acc.invoked ++ [(ppFlag, sig, h)],
                             inner := runHook h acc.inner }) s

/-- Modelled from the spec: the lifecycle states of the server (the state field
is declared outside `const_windows.go`). -/
inductive State where
  | INITIALIZING
  | RUNNING
  | SHUTTING_DOWN
  | TERMINATE
deriving DecidableEq

/-- A sample of the remaining server state: lifecycle state, whether the
listener was closed, and the number of successor processes launched. -/
structure Life where
  state : State
  listenerClosed : Bool
  successors : Nat
deriving DecidableEq

/-- A sample environment.  The three flags choose whether the key pair loads,
whether the listener opens and whether the launch of a successor succeeds.
Hooks leave `Life` alone; a failed launch changes nothing; `shutdown` closes the
listener and enters `SHUTTING_DOWN`; `Serve` ends in `TERMINATE`. -/
def sampleEnv (certOk listenOk forkOk : Bool) : Env (Hooked Life) where
  hookableSignals := HookableSignals
  pid := 4242
  signalHooks := fun ppFlag sig srv _ => signalHooks (fun _ s => s) ppFlag sig srv.rest
  fork := fun srv _ =>
    if forkOk then
      ({ srv.rest with inner := { srv.rest.inner with successors := srv.rest.inner.successors + 1 } },
        none)
    else (srv.rest, some "launch failed")
  shutdown := fun srv _ =>
    { srv.rest with inner := { srv.rest.inner with state := State.SHUTTING_DOWN,
                                                   listenerClosed := true } }
  getListener := fun _ srv _ =>
    if listenOk then (srv.rest, Except.ok (Listener.net 7))
    else (srv.rest, Except.error "bind failed")
  BeforeBegin := fun _ srv _ => srv.rest
  Serve := fun srv _ =>
    ({ srv.rest with inner := { srv.rest.inner with state := State.TERMINATE } }, none)
  LoadX509KeyPair := fun _ _ =>
    if certOk then (⟨42⟩, none) else (Certificate.zero, some "bad key pair")

/-- A hook table with pre hook 1 and post hook 2 for SIGHUP, pre hook 3 and post
hook 4 for SIGINT, and no other hook. -/
def sampleHooks (ppFlag : Phase) (sig : Signal) : List Nat :=
  if sig = SIGHUP then
    (match ppFlag with
     | Phase.PRE_SIGNAL => [1]
     | Phase.POST_SIGNAL => [2])
  else if sig = SIGINT then
    (match ppFlag with
     | Phase.PRE_SIGNAL => [3]
     | Phase.POST_SIGNAL => [4])
  else []

/-- A sample running server: the given address, a user configuration at heap
address 0 with two protocols and a two-element certificate slice. -/
def sampleWorld (addr : String) (tlsConfig : Option Nat) : World (Hooked Life) where
  srv :=
    { Addr := addr
      TLSConfig := tlsConfig
      EndlessListener := none
      tlsInnerListener := none
      rest := { SignalHooks := sampleHooks, invoked := [],
                inner := { state := State.RUNNING, listenerClosed := false, successors := 0 } } }
  heap :=
    { configs := [{ NextProtos := some ["h2", "http/1.1"],
                    Certificates := some ⟨0, 0, 2⟩, others := 5 }]
      certArrays := [[⟨11⟩, ⟨12⟩]] }
  trace := []

/-- The lifecycle state and the closed flag of the listener in the sample state. -/
def lifecycleView (r : Hooked Life) : State × Bool := (r.inner.state, r.inner.listenerClosed)

/-- The lifecycle state in the sample state. -/
def lifecycleOf (r : Hooked Life) : State := r.inner.state

/-- Modelled from the spec: what `shutdown`, declared outside `const_windows.go`,
does to the lifecycle state.  Spec, lifecycle state machine: a server that is
`RUNNING` moves to `SHUTTING_DOWN`.  `life` reads the lifecycle state off the
part of the server that the methods own. -/
def ShutdownPerSpec {σ : Type} (env : Env σ) (life : σ → State) : Prop :=
  ∀ (srv : endlessServer σ) (h : Heap),
    life srv.rest = State.RUNNING → life (env.shutdown srv h) = State.SHUTTING_DOWN

/-- Modelled from the spec: the hooks, run by `signalHooks` outside
`const_windows.go`, surround the built-in transition and do not themselves move
the lifecycle state. -/
def HooksKeepLifecycle {σ : Type} (env : Env σ) (life : σ → State) : Prop :=
  ∀ (pp : Phase) (sig : Signal) (srv : endlessServer σ) (h : Heap),
    life (env.signalHooks pp sig srv h) = life srv.rest

/-- Modelled from the spec: the hook table holds hooks for hookable signals only.
Registration, declared outside `const_windows.go`, fails with
`UnsupportedSignal` for any other signal, and the table of the Windows build,
`SignalMap`, has the three hookable signals as its only keys. -/
def HooksOnlyForHookable (table : Phase → Signal → List Nat) : Prop :=
  ∀ (pp : Phase) (sig : Signal), sig ∉ HookableSignals → table pp sig = []

/-! ## Lemmas on traces -/

theorem newEvents_append {σ : Type} (w w' : World σ) (d : List Event)
    (h : w'.trace = w.trace ++ d) : newEvents w w' = d := by
  simp [newEvents, h]

theorem callSignalHooks_trace {σ : Type} (env : Env σ) (pp : Phase) (sig : Signal)
    (w : World σ) :
    (callSignalHooks env pp sig w).trace = w.trace ++ [Event.signalHooks pp sig] := by
  simp [callSignalHooks, World.emit, World.setRest]

theorem handleSignalsSwitch_trace {σ : Type} (env : Env σ) (sig : Signal) (w : World σ) :
    ∃ d, (handleSignalsSwitch env sig w).trace = w.trace ++ d ∧
      dispatchEvents d = builtinAction sig := by
  unfold handleSignalsSwitch
  by_cases h1 : sig = SIGHUP
  · subst h1
    cases hf : (env.fork w.srv w.heap).2 with
    | none =>
      refine ⟨[Event.logPrintln [LogArg.int env.pid, LogArg.str "Received SIGHUP. forking."],
        Event.fork], ?_, rfl⟩
      simp [hf, World.emit, World.setRest]
    | some e =>
      refine ⟨[Event.logPrintln [LogArg.int env.pid, LogArg.str "Received SIGHUP. forking."],
        Event.fork, Event.logPrintln [LogArg.str "Fork err:", LogArg.err e]], ?_, ?_⟩
      · simp [hf, World.emit, World.setRest]
      · simp [dispatchEvents, isDispatchEvent, builtinAction]
  · by_cases h2 : sig = SIGINT
    · subst h2
      refine ⟨[Event.logPrintln [LogArg.int env.pid, LogArg.str "Received SIGINT."],
        Event.shutdown], ?_, rfl⟩
      simp [h1, World.emit, World.setRest]
    · by_cases h3 : sig = SIGTERM
      · subst h3
        refine ⟨[Event.logPrintln [LogArg.int env.pid, LogArg.str "Received SIGTERM."],
          Event.shutdown], ?_, rfl⟩
        simp [h1, h2, World.emit, World.setRest]
      · refine ⟨[Event.logPrintf "Received %v: nothing i care about...\n" [LogArg.sig sig]],
          ?_, ?_⟩
        · simp [h1, h2, h3, World.emit]
        · simp [dispatchEvents, isDispatchEvent, builtinAction, h1, h2, h3]

theorem handleSignalsStep_trace {σ : Type} (env : Env σ) (sig : Signal) (w : World σ) :
    ∃ d, (handleSignalsStep env sig w).trace = w.trace ++ d ∧
      dispatchEvents d = deliveryTrace sig := by
  obtain ⟨d, hd, hdd⟩ := handleSignalsSwitch_trace env sig
    (callSignalHooks env Phase.PRE_SIGNAL sig w)
  refine ⟨[Event.signalHooks Phase.PRE_SIGNAL sig] ++ d ++
    [Event.signalHooks Phase.POST_SIGNAL sig], ?_, ?_⟩
  · simp [handleSignalsStep, callSignalHooks_trace, hd]
  · simp only [dispatchEvents, List.filter_append] at hdd ⊢
    rw [hdd]
    simp [deliveryTrace, isDispatchEvent]

theorem handleSignalsLoop_trace {σ : Type} (env : Env σ) (sigs : List Signal) :
    ∀ w : World σ, ∃ d, (handleSignalsLoop env sigs w).trace = w.trace ++ d ∧
      dispatchEvents d = deliveriesTrace sigs := by
  induction sigs with
  | nil => intro w; exact ⟨[], by simp [handleSignalsLoop], rfl⟩
  | cons sig sigs ih =>
    intro w
    obtain ⟨d1, h1, h1d⟩ := handleSignalsStep_trace env sig w
    obtain ⟨d2, h2, h2d⟩ := ih (handleSignalsStep env sig w)
    refine ⟨d1 ++ d2, ?_, ?_⟩
    · simp [handleSignalsLoop, h2, h1]
    · simp only [dispatchEvents, List.filter_append] at h1d h2d ⊢
      rw [h1d, h2d]; rfl

theorem signalHooks_foldl {τ : Type} (runHook : Nat → τ → τ) (pp : Phase) (sig : Signal)
    (hs : List Nat) : ∀ s : Hooked τ,
    (hs.foldl (fun acc h => { acc with invoked := acc.invoked ++ [(pp, sig, h)],
                                       inner := runHook h acc.inner }) s).SignalHooks
        = s.SignalHooks ∧
    (hs.foldl (fun acc h => { acc with invoked := acc.invoked ++ [(pp, sig, h)],
                                       inner := runHook h acc.inner }) s).invoked
        = s.invoked ++ hs.map (fun h => (pp, sig, h)) ∧
    (hs.foldl (fun acc h => { acc with invoked := acc.invoked ++ [(pp, sig, h)],
                                       inner := runHook h acc.inner }) s).inner
        = hs.foldl (fun t h => runHook h t) s.inner := by
  induction hs with
  | nil => intro s; simp
  | cons h hs ih =>
    intro s
    obtain ⟨h1, h2, h3⟩ := ih { s with invoked := s.invoked ++ [(pp, sig, h)],
                                       inner := runHook h s.inner }
    simp only [List.foldl_cons]
    refine ⟨h1, ?_, h3⟩
    rw [h2]; simp

theorem signalHooks_table {τ : Type} (runHook : Nat → τ → τ) (pp : Phase) (sig : Signal)
    (s : Hooked τ) : (signalHooks runHook pp sig s).SignalHooks = s.SignalHooks :=
  (signalHooks_foldl runHook pp sig _ s).1

theorem signalHooks_invoked {τ : Type} (runHook : Nat → τ → τ) (pp : Phase) (sig : Signal)
    (s : Hooked τ) : (signalHooks runHook pp sig s).invoked =
      s.invoked ++ (s.SignalHooks pp sig).map (fun h => (pp, sig, h)) :=
  (signalHooks_foldl runHook pp sig _ s).2.1

theorem signalHooks_inner {τ : Type} (runHook : Nat → τ → τ) (pp : Phase) (sig : Signal)
    (s : Hooked τ) : (signalHooks runHook pp sig s).inner =
      (s.SignalHooks pp sig).foldl (fun t h => runHook h t) s.inner :=
  (signalHooks_foldl runHook pp sig _ s).2.2

theorem signalHooks_none {τ : Type} (runHook : Nat → τ → τ) (pp : Phase) (sig : Signal)
    (s : Hooked τ) (h : s.SignalHooks pp sig = []) : signalHooks runHook pp sig s = s := by
  simp [signalHooks, h]

theorem sampleEnv_hooks_view (a b c : Bool) (pp : Phase) (sig : Signal)
    (srv : endlessServer (Hooked Life)) (h : Heap) :
    lifecycleView ((sampleEnv a b c).signalHooks pp sig srv h) = lifecycleView srv.rest := by
  have hi := signalHooks_inner (fun _ (s : Life) => s) pp sig srv.rest
  have hid : ∀ (l : List Nat) (t : Life), l.foldl (fun t _ => t) t = t := by
    intro l; induction l with
    | nil => intro t; rfl
    | cons x l ih => intro t; simp [ih]
  simp only [lifecycleView, sampleEnv]
  rw [hi, hid]

/-! ## Lemmas on the heap and on the entry points -/

theorem getD_append_zero (l : List Config) (p : Nat) :
    (l ++ [Config.zero])[p]?.getD Config.zero = l[p]?.getD Config.zero := by
  induction l generalizing p with
  | nil => cases p <;> simp
  | cons x l ih => cases p with
    | zero => simp
    | succ p => simpa using ih p

theorem set_append_length {α : Type} (l : List α) (x y : α) :
    (l ++ [x]).set l.length y = l ++ [y] := by
  induction l with
  | nil => simp
  | cons z l ih => simp [ih]

theorem tlsPrepareConfig_eq {σ : Type} (env : Env σ) (certFile keyFile : String)
    (srv : endlessServer σ) (h : Heap) :
    tlsPrepareConfig env certFile keyFile srv h =
      ({ configs := h.configs ++ [privateConfig (userConfig srv h) h.certArrays.length],
         certArrays := h.certArrays ++ [[(env.LoadX509KeyPair certFile keyFile).1]] },
        h.configs.length,
        (env.LoadX509KeyPair certFile keyFile).1,
        (env.LoadX509KeyPair certFile keyFile).2) := by
  cases hs : srv.TLSConfig with
  | none =>
    simp [tlsPrepareConfig, userConfig, privateConfig, expectedNextProtos, hs,
      Heap.allocConfig, Heap.allocCerts, Heap.storeConfig, Heap.loadConfig, Heap.storeCert,
      set_append_length, Config.zero]
  | some p =>
    cases hn : (h.configs[p]?.getD Config.zero).NextProtos with
    | none =>
      simp [tlsPrepareConfig, userConfig, privateConfig, expectedNextProtos, hs, hn,
        Heap.allocConfig, Heap.allocCerts, Heap.storeConfig, Heap.loadConfig, Heap.storeCert,
        set_append_length, getD_append_zero]
    | some ps =>
      simp [tlsPrepareConfig, userConfig, privateConfig, expectedNextProtos, hs, hn,
        Heap.allocConfig, Heap.allocCerts, Heap.storeConfig, Heap.loadConfig, Heap.storeCert,
        set_append_length, getD_append_zero]

theorem ListenAndServe_error {σ : Type} (env : Env σ) (w : World σ) (e : Err)
    (h : (env.getListener (addrOr ":http" w.srv.Addr) w.srv w.heap).2 = Except.error e) :
    (ListenAndServe env w).2 = some e ∧
    (ListenAndServe env w).1.trace = w.trace ++
      [Event.goHandleSignals, Event.getListener (addrOr ":http" w.srv.Addr),
       Event.logPrintln [LogArg.err e]] ∧
    (ListenAndServe env w).1.srv.EndlessListener = w.srv.EndlessListener ∧
    (ListenAndServe env w).1.srv.tlsInnerListener = w.srv.tlsInnerListener := by
  simp only [addrOr] at h
  simp [ListenAndServe, World.emit, World.setRest, addrOr, h]

theorem ListenAndServe_ok {σ : Type} (env : Env σ) (w : World σ) (l : Listener)
    (h : (env.getListener (addrOr ":http" w.srv.Addr) w.srv w.heap).2 = Except.ok l) :
    (ListenAndServe env w).1.trace = w.trace ++
      [Event.goHandleSignals, Event.getListener (addrOr ":http" w.srv.Addr),
       Event.setEndlessListener (Listener.endless l), Event.BeforeBegin w.srv.Addr,
       Event.Serve] ∧
    (ListenAndServe env w).1.srv.EndlessListener = some (Listener.endless l) := by
  simp only [addrOr] at h
  simp [ListenAndServe, World.emit, World.setRest, addrOr, h]

theorem ListenAndServeTLS_cert_error {σ : Type} (env : Env σ) (w : World σ)
    (certFile keyFile : String) (e : Err)
    (h : (env.LoadX509KeyPair certFile keyFile).2 = some e) :
    (ListenAndServeTLS env certFile keyFile w).2 = some e ∧
    (ListenAndServeTLS env certFile keyFile w).1.trace = w.trace ++
      [Event.LoadX509KeyPair certFile keyFile] ∧
    (ListenAndServeTLS env certFile keyFile w).1.srv = w.srv ∧
    (ListenAndServeTLS env certFile keyFile w).1.heap =
      (tlsPrepareConfig env certFile keyFile w.srv w.heap).1 := by
  simp [ListenAndServeTLS, tlsPrepareConfig_eq, World.emit, h]

theorem ListenAndServeTLS_listen_error {σ : Type} (env : Env σ) (w : World σ)
    (certFile keyFile : String) (e : Err)
    (hc : (env.LoadX509KeyPair certFile keyFile).2 = none)
    (h : (env.getListener (addrOr ":https" w.srv.Addr) w.srv
      (tlsPrepareConfig env certFile keyFile w.srv w.heap).1).2 = Except.error e) :
    (ListenAndServeTLS env certFile keyFile w).2 = some e ∧
    (ListenAndServeTLS env certFile keyFile w).1.trace = w.trace ++
      [Event.LoadX509KeyPair certFile keyFile, Event.goHandleSignals,
       Event.getListener (addrOr ":https" w.srv.Addr), Event.logPrintln [LogArg.err e]] ∧
    (ListenAndServeTLS env certFile keyFile w).1.srv.EndlessListener = w.srv.EndlessListener ∧
    (ListenAndServeTLS env certFile keyFile w).1.srv.tlsInnerListener =
      w.srv.tlsInnerListener ∧
    (ListenAndServeTLS env certFile keyFile w).1.srv.TLSConfig = w.srv.TLSConfig ∧
    (ListenAndServeTLS env certFile keyFile w).1.heap =
      (tlsPrepareConfig env certFile keyFile w.srv w.heap).1 := by
  simp only [addrOr, tlsPrepareConfig_eq] at h
  simp [ListenAndServeTLS, tlsPrepareConfig_eq, World.emit, World.setRest, addrOr, hc, h]

theorem ListenAndServeTLS_ok {σ : Type} (env : Env σ) (w : World σ)
    (certFile keyFile : String) (l : Listener)
    (hc : (env.LoadX509KeyPair certFile keyFile).2 = none)
    (h : (env.getListener (addrOr ":https" w.srv.Addr) w.srv
      (tlsPrepareConfig env certFile keyFile w.srv w.heap).1).2 = Except.ok l) :
    (ListenAndServeTLS env certFile keyFile w).1.trace = w.trace ++
      [Event.LoadX509KeyPair certFile keyFile, Event.goHandleSignals,
       Event.getListener (addrOr ":https" w.srv.Addr),
       Event.setTlsInnerListener (Listener.endless l),
       Event.setEndlessListener (Listener.tls (Listener.endless l) w.heap.configs.length),
       Event.logPrintln [LogArg.int env.pid, LogArg.str w.srv.Addr],
       Event.Serve] ∧
    (ListenAndServeTLS env certFile keyFile w).1.srv.EndlessListener =
      some (Listener.tls (Listener.endless l) w.heap.configs.length) ∧
    (ListenAndServeTLS env certFile keyFile w).1.srv.tlsInnerListener =
      some (Listener.endless l) ∧
    (ListenAndServeTLS env certFile keyFile w).1.srv.TLSConfig = w.srv.TLSConfig ∧
    (ListenAndServeTLS env certFile keyFile w).1.heap =
      (tlsPrepareConfig env certFile keyFile w.srv w.heap).1 := by
  simp only [addrOr, tlsPrepareConfig_eq] at h
  simp [ListenAndServeTLS, tlsPrepareConfig_eq, World.emit, World.setRest, addrOr, hc, h]

theorem ListenAndServeTLS_frame {σ : Type} (env : Env σ) (w : World σ)
    (certFile keyFile : String) :
    (ListenAndServeTLS env certFile keyFile w).1.heap =
      (tlsPrepareConfig env certFile keyFile w.srv w.heap).1 ∧
    (ListenAndServeTLS env certFile keyFile w).1.srv.TLSConfig = w.srv.TLSConfig := by
  cases hc : (env.LoadX509KeyPair certFile keyFile).2 with
  | some e =>
    obtain ⟨_, _, h3, h4⟩ := ListenAndServeTLS_cert_error env w certFile keyFile e hc
    exact ⟨h4, by rw [h3]⟩
  | none =>
    cases hl : (env.getListener (addrOr ":https" w.srv.Addr) w.srv
        (tlsPrepareConfig env certFile keyFile w.srv w.heap).1).2 with
    | error e =>
      obtain ⟨_, _, _, _, h5, h6⟩ := ListenAndServeTLS_listen_error env w certFile keyFile e hc hl
      exact ⟨h6, h5⟩
    | ok l =>
      obtain ⟨_, _, _, h5, h6⟩ := ListenAndServeTLS_ok env w certFile keyFile l hc hl
      exact ⟨h6, h5⟩

theorem prepared_loadConfig_fresh {σ : Type} (env : Env σ) (certFile keyFile : String)
    (srv : endlessServer σ) (h : Heap) :
    (tlsPrepareConfig env certFile keyFile srv h).1.loadConfig h.configs.length =
      privateConfig (userConfig srv h) h.certArrays.length := by
  simp [tlsPrepareConfig_eq, Heap.loadConfig]

/-! ## The signal dispatcher -/

/-- C1. Each delivery of SIGHUP, SIGINT or SIGTERM produces exactly the dispatcher
events: pre hooks, the built-in action (`fork` for SIGHUP, `shutdown` for SIGINT
and SIGTERM), post hooks, in that order, whatever the state; and for every finite
sequence of deliveries the dispatcher events are the per-delivery traces
concatenated in delivery order. -/
theorem handleSignals_delivery_order {σ : Type} (env : Env σ) (w : World σ)
    (sigs : List Signal) :
    dispatchEvents (newEvents w (handleSignalsStep env SIGHUP w)) =
        [Event.signalHooks Phase.PRE_SIGNAL SIGHUP, Event.fork,
         Event.signalHooks Phase.POST_SIGNAL SIGHUP] ∧
    dispatchEvents (newEvents w (handleSignalsStep env SIGINT w)) =
        [Event.signalHooks Phase.PRE_SIGNAL SIGINT, Event.shutdown,
         Event.signalHooks Phase.POST_SIGNAL SIGINT] ∧
    dispatchEvents (newEvents w (handleSignalsStep env SIGTERM w)) =
        [Event.signalHooks Phase.PRE_SIGNAL SIGTERM, Event.shutdown,
         Event.signalHooks Phase.POST_SIGNAL SIGTERM] ∧
    (∀ (sig : Signal) (v : World σ),
        dispatchEvents (newEvents v (handleSignalsStep env sig v)) = deliveryTrace sig) ∧
    dispatchEvents (newEvents w (handleSignals env sigs w)) = deliveriesTrace sigs := by
  have step : ∀ (sig : Signal) (v : World σ),
      dispatchEvents (newEvents v (handleSignalsStep env sig v)) = deliveryTrace sig := by
    intro sig v
    obtain ⟨d, hd, hdd⟩ := handleSignalsStep_trace env sig v
    rw [newEvents_append v _ d hd, hdd]
  refine ⟨?_, ?_, ?_, step, ?_⟩
  · rw [step]; decide
  · rw [step]; decide
  · rw [step]; decide
  · obtain ⟨d, hd, hdd⟩ := handleSignalsLoop_trace env sigs
      (w.emit (Event.notify env.hookableSignals))
    have ht : (handleSignals env sigs w).trace =
        w.trace ++ ([Event.notify env.hookableSignals] ++ d) := by
      unfold handleSignals
      rw [hd]
      simp [World.emit]
    rw [newEvents_append w _ _ ht]
    simp only [dispatchEvents, List.filter_append] at hdd ⊢
    rw [hdd]
    simp [isDispatchEvent]

/-- C2. When the reload signal is processed and `srv.fork()` returns an error, the
delivery consists of the pre hooks, the log line, the call of `fork`, the log of
the error and the post hooks: `shutdown` is not called, the listener fields and
the heap are untouched, and every observation of the server state (such as the
lifecycle state or the closed flag of the listener) that a failed `fork` leaves
alone is the same after the built-in action as before, and the same after the
whole delivery when the hooks leave it alone too. -/
theorem handleSignals_fork_error_keeps_state {σ α : Type} (env : Env σ) (w : World σ)
    (e : Err) (obs : σ → α)
    (hfork : (env.fork (callSignalHooks env Phase.PRE_SIGNAL SIGHUP w).srv w.heap).2 = some e)
    (hobs : ∀ srv h, (env.fork srv h).2 ≠ none → obs (env.fork srv h).1 = obs srv.rest) :
    newEvents w (handleSignalsStep env SIGHUP w) =
      [Event.signalHooks Phase.PRE_SIGNAL SIGHUP,
       Event.logPrintln [LogArg.int env.pid, LogArg.str "Received SIGHUP. forking."],
       Event.fork,
       Event.logPrintln [LogArg.str "Fork err:", LogArg.err e],
       Event.signalHooks Phase.POST_SIGNAL SIGHUP] ∧
    Event.shutdown ∉ newEvents w (handleSignalsStep env SIGHUP w) ∧
    obs (handleSignalsSwitch env SIGHUP
          (callSignalHooks env Phase.PRE_SIGNAL SIGHUP w)).srv.rest =
      obs (callSignalHooks env Phase.PRE_SIGNAL SIGHUP w).srv.rest ∧
    ((∀ pp sig srv h, obs (env.signalHooks pp sig srv h) = obs srv.rest) →
      obs (handleSignalsStep env SIGHUP w).srv.rest = obs w.srv.rest) ∧
    (handleSignalsStep env SIGHUP w).srv.EndlessListener = w.srv.EndlessListener ∧
    (handleSignalsStep env SIGHUP w).srv.tlsInnerListener = w.srv.tlsInnerListener ∧
    (handleSignalsStep env SIGHUP w).heap = w.heap := by
  have hf : (env.fork { w.srv with rest := env.signalHooks Phase.PRE_SIGNAL SIGHUP w.srv w.heap }
      w.heap).2 = some e := by
    simpa [callSignalHooks, World.emit, World.setRest] using hfork
  have hne : (env.fork { w.srv with rest := env.signalHooks Phase.PRE_SIGNAL SIGHUP w.srv w.heap }
      w.heap).2 ≠ none := by rw [hf]; simp
  have ht : (handleSignalsStep env SIGHUP w).trace = w.trace ++
      [Event.signalHooks Phase.PRE_SIGNAL SIGHUP,
       Event.logPrintln [LogArg.int env.pid, LogArg.str "Received SIGHUP. forking."],
       Event.fork,
       Event.logPrintln [LogArg.str "Fork err:", LogArg.err e],
       Event.signalHooks Phase.POST_SIGNAL SIGHUP] := by
    simp [handleSignalsStep, handleSignalsSwitch, callSignalHooks, World.emit, World.setRest, hf]
  have hsw : obs (handleSignalsSwitch env SIGHUP
        (callSignalHooks env Phase.PRE_SIGNAL SIGHUP w)).srv.rest =
      obs (callSignalHooks env Phase.PRE_SIGNAL SIGHUP w).srv.rest := by
    have := hobs _ _ hne
    simpa [handleSignalsSwitch, callSignalHooks, World.emit, World.setRest, hf] using this
  refine ⟨newEvents_append w _ _ ht, ?_, hsw, ?_, ?_, ?_, ?_⟩
  · rw [newEvents_append w _ _ ht]; simp
  · intro hh
    have h1 : obs (handleSignalsStep env SIGHUP w).srv.rest =
        obs (handleSignalsSwitch env SIGHUP
          (callSignalHooks env Phase.PRE_SIGNAL SIGHUP w)).srv.rest := by
      simp [handleSignalsStep, callSignalHooks, World.emit, World.setRest, hh]
    rw [h1, hsw]
    simp [callSignalHooks, World.emit, World.setRest, hh]
  · simp [handleSignalsStep, handleSignalsSwitch, callSignalHooks, World.emit, World.setRest, hf]
  · simp [handleSignalsStep, handleSignalsSwitch, callSignalHooks, World.emit, World.setRest, hf]
  · simp [handleSignalsStep, handleSignalsSwitch, callSignalHooks, World.emit, World.setRest, hf]

/-- Witness for C2: with a launch that fails, a running server stays running with
its listener open, and `shutdown` is not called. -/
theorem handleSignals_fork_error_keeps_state_witness :
    ((sampleEnv true true false).fork
        (callSignalHooks (sampleEnv true true false) Phase.PRE_SIGNAL SIGHUP
          (sampleWorld ":8080" none)).srv (sampleWorld ":8080" none).heap).2
      = some "launch failed" ∧
    Event.shutdown ∉ newEvents (sampleWorld ":8080" none)
      (handleSignalsStep (sampleEnv true true false) SIGHUP (sampleWorld ":8080" none)) ∧
    lifecycleView (handleSignalsStep (sampleEnv true true false) SIGHUP
      (sampleWorld ":8080" none)).srv.rest = (State.RUNNING, false) :=
  have h := handleSignals_fork_error_keeps_state (sampleEnv true true false)
    (sampleWorld ":8080" none) "launch failed" lifecycleView rfl
    (fun _ _ _ => rfl)
  ⟨rfl, h.2.1, (h.2.2.2.1 (sampleEnv_hooks_view true true false)).trans rfl⟩

/-- C3. A delivery of SIGINT or of SIGTERM consists of the pre hooks, one log
line, one call of `shutdown` and the post hooks: `shutdown` is called exactly
once and `fork` never, so no successor is spawned.  The state after the built-in
action is the one `shutdown` returns, and the state after the delivery is that
state passed through the post hooks.  With a `shutdown` that performs the
transition of the spec, a server that is `RUNNING` is in `SHUTTING_DOWN` after
the built-in action, and after the whole delivery when the hooks leave the
lifecycle state alone.  The two signals are handled by the same action on the
same state. -/
theorem handleSignals_terminate_shutdown_once {σ : Type} (env : Env σ) (w : World σ)
    (life : σ → State) :
    newEvents w (handleSignalsStep env SIGINT w) =
      [Event.signalHooks Phase.PRE_SIGNAL SIGINT,
       Event.logPrintln [LogArg.int env.pid, LogArg.str "Received SIGINT."],
       Event.shutdown,
       Event.signalHooks Phase.POST_SIGNAL SIGINT] ∧
    newEvents w (handleSignalsStep env SIGTERM w) =
      [Event.signalHooks Phase.PRE_SIGNAL SIGTERM,
       Event.logPrintln [LogArg.int env.pid, LogArg.str "Received SIGTERM."],
       Event.shutdown,
       Event.signalHooks Phase.POST_SIGNAL SIGTERM] ∧
    (newEvents w (handleSignalsStep env SIGINT w)).count Event.shutdown = 1 ∧
    (newEvents w (handleSignalsStep env SIGTERM w)).count Event.shutdown = 1 ∧
    Event.fork ∉ newEvents w (handleSignalsStep env SIGINT w) ∧
    Event.fork ∉ newEvents w (handleSignalsStep env SIGTERM w) ∧
    (handleSignalsSwitch env SIGINT w).srv.rest = env.shutdown w.srv w.heap ∧
    (handleSignalsSwitch env SIGTERM w).srv.rest = env.shutdown w.srv w.heap ∧
    (handleSignalsSwitch env SIGINT w).srv = (handleSignalsSwitch env SIGTERM w).srv ∧
    (handleSignalsSwitch env SIGINT w).heap = (handleSignalsSwitch env SIGTERM w).heap ∧
    dispatchEvents (newEvents w (handleSignalsSwitch env SIGINT w)) =
      dispatchEvents (newEvents w (handleSignalsSwitch env SIGTERM w)) ∧
    (handleSignalsStep env SIGINT w).srv.rest =
      env.signalHooks Phase.POST_SIGNAL SIGINT
        { w.srv with rest := (env.shutdown
            { w.srv with rest := (env.signalHooks Phase.PRE_SIGNAL SIGINT w.srv w.heap) }
            w.heap) }
        w.heap ∧
    (handleSignalsStep env SIGTERM w).srv.rest =
      env.signalHooks Phase.POST_SIGNAL SIGTERM
        { w.srv with rest := (env.shutdown
            { w.srv with rest := (env.signalHooks Phase.PRE_SIGNAL SIGTERM w.srv w.heap) }
            w.heap) }
        w.heap ∧
    (ShutdownPerSpec env life → life w.srv.rest = State.RUNNING →
      life (handleSignalsSwitch env SIGINT w).srv.rest = State.SHUTTING_DOWN ∧
      life (handleSignalsSwitch env SIGTERM w).srv.rest = State.SHUTTING_DOWN) ∧
    (ShutdownPerSpec env life → HooksKeepLifecycle env life →
      life w.srv.rest = State.RUNNING →
      life (handleSignalsStep env SIGINT w).srv.rest = State.SHUTTING_DOWN ∧
      life (handleSignalsStep env SIGTERM w).srv.rest = State.SHUTTING_DOWN) := by
  have h1 : SIGINT ≠ SIGHUP := by decide
  have h2 : SIGTERM ≠ SIGHUP := by decide
  have h3 : SIGTERM ≠ SIGINT := by decide
  have ti : (handleSignalsStep env SIGINT w).trace = w.trace ++
      [Event.signalHooks Phase.PRE_SIGNAL SIGINT,
       Event.logPrintln [LogArg.int env.pid, LogArg.str "Received SIGINT."],
       Event.shutdown,
       Event.signalHooks Phase.POST_SIGNAL SIGINT] := by
    simp [handleSignalsStep, handleSignalsSwitch, callSignalHooks, World.emit, World.setRest, h1]
  have tt : (handleSignalsStep env SIGTERM w).trace = w.trace ++
      [Event.signalHooks Phase.PRE_SIGNAL SIGTERM,
       Event.logPrintln [LogArg.int env.pid, LogArg.str "Received SIGTERM."],
       Event.shutdown,
       Event.signalHooks Phase.POST_SIGNAL SIGTERM] := by
    simp [handleSignalsStep, handleSignalsSwitch, callSignalHooks, World.emit, World.setRest,
      h2, h3]
  have si : (handleSignalsSwitch env SIGINT w).trace = w.trace ++
      [Event.logPrintln [LogArg.int env.pid, LogArg.str "Received SIGINT."],
       Event.shutdown] := by
    simp [handleSignalsSwitch, World.emit, World.setRest, h1]
  have st : (handleSignalsSwitch env SIGTERM w).trace = w.trace ++
      [Event.logPrintln [LogArg.int env.pid, LogArg.str "Received SIGTERM."],
       Event.shutdown] := by
    simp [handleSignalsSwitch, World.emit, World.setRest, h2, h3]
  have wi : (handleSignalsSwitch env SIGINT w).srv.rest = env.shutdown w.srv w.heap := by
    simp [handleSignalsSwitch, World.emit, World.setRest, h1]
  have wt : (handleSignalsSwitch env SIGTERM w).srv.rest = env.shutdown w.srv w.heap := by
    simp [handleSignalsSwitch, World.emit, World.setRest, h2, h3]
  have di : (handleSignalsStep env SIGINT w).srv.rest =
      env.signalHooks Phase.POST_SIGNAL SIGINT
        { w.srv with rest := (env.shutdown
            { w.srv with rest := (env.signalHooks Phase.PRE_SIGNAL SIGINT w.srv w.heap) }
            w.heap) }
        w.heap := by
    simp [handleSignalsStep, handleSignalsSwitch, callSignalHooks, World.emit, World.setRest, h1]
  have dt : (handleSignalsStep env SIGTERM w).srv.rest =
      env.signalHooks Phase.POST_SIGNAL SIGTERM
        { w.srv with rest := (env.shutdown
            { w.srv with rest := (env.signalHooks Phase.PRE_SIGNAL SIGTERM w.srv w.heap) }
            w.heap) }
        w.heap := by
    simp [handleSignalsStep, handleSignalsSwitch, callSignalHooks, World.emit, World.setRest,
      h2, h3]
  rw [newEvents_append w _ _ ti, newEvents_append w _ _ tt, newEvents_append w _ _ si,
    newEvents_append w _ _ st]
  refine ⟨rfl, rfl, ?_, ?_, ?_, ?_, wi, wt, ?_, ?_, ?_, di, dt, ?_, ?_⟩
  · simp [List.count_cons]
  · simp [List.count_cons]
  · simp
  · simp
  · simp [handleSignalsSwitch, World.emit, World.setRest, h1, h2, h3]
  · simp [handleSignalsSwitch, World.emit, World.setRest, h1, h2, h3]
  · simp [dispatchEvents, isDispatchEvent]
  · intro hs hr
    rw [wi, wt]
    exact ⟨hs w.srv w.heap hr, hs w.srv w.heap hr⟩
  · intro hs hk hr
    rw [di, dt]
    refine ⟨?_, ?_⟩
    · rw [hk]
      exact hs _ _ (by rw [hk]; exact hr)
    · rw [hk]
      exact hs _ _ (by rw [hk]; exact hr)

/-- Witness for C3: the sample server is `RUNNING` with its listener open; after a
delivery of SIGINT, and after a delivery of SIGTERM, it is in `SHUTTING_DOWN`, and
no successor process was launched. -/
theorem handleSignals_terminate_shutdown_once_witness :
    lifecycleOf (sampleWorld ":8080" none).srv.rest = State.RUNNING ∧
    lifecycleOf (handleSignalsStep (sampleEnv true true true) SIGINT
      (sampleWorld ":8080" none)).srv.rest = State.SHUTTING_DOWN ∧
    lifecycleOf (handleSignalsStep (sampleEnv true true true) SIGTERM
      (sampleWorld ":8080" none)).srv.rest = State.SHUTTING_DOWN ∧
    Event.fork ∉ newEvents (sampleWorld ":8080" none)
      (handleSignalsStep (sampleEnv true true true) SIGINT (sampleWorld ":8080" none)) ∧
    (handleSignalsStep (sampleEnv true true true) SIGINT
      (sampleWorld ":8080" none)).srv.rest.inner.successors = 0 :=
  have h := handleSignals_terminate_shutdown_once (sampleEnv true true true)
    (sampleWorld ":8080" none) lifecycleOf
  have hd := h.2.2.2.2.2.2.2.2.2.2.2.2.2.2
    (fun _ _ _ => rfl)
    (fun pp sig srv hp => congrArg Prod.fst (sampleEnv_hooks_view true true true pp sig srv hp))
    rfl
  ⟨rfl, hd.1, hd.2, h.2.2.2.2.1, by decide⟩

theorem sampleHooks_only_hookable : HooksOnlyForHookable sampleHooks := by
  intro pp sig hs
  have a : sig ≠ SIGHUP := fun e => hs (by rw [e]; decide)
  have b : sig ≠ SIGINT := fun e => hs (by rw [e]; decide)
  simp [sampleHooks, a, b]

/-- C4. For a signal that is none of SIGHUP, SIGINT, SIGTERM, on a server whose
hook table holds hooks for hookable signals only, the delivery invokes no pre
hook and no post hook and calls neither `fork` nor `shutdown`: the hook runner
finds nothing to run in either phase, the only other event is the log line, and
the server and the heap are unchanged. -/
theorem handleSignals_unknown_signal {τ : Type} (env : Env (Hooked τ))
    (runHook : Nat → τ → τ) (w : World (Hooked τ)) (sig : Signal)
    (henv : ∀ pp s srv h, env.signalHooks pp s srv h = signalHooks runHook pp s srv.rest)
    (htable : HooksOnlyForHookable w.srv.rest.SignalHooks)
    (h1 : sig ≠ SIGHUP) (h2 : sig ≠ SIGINT) (h3 : sig ≠ SIGTERM) :
    (handleSignalsStep env sig w).srv.rest.invoked = w.srv.rest.invoked ∧
    Event.fork ∉ newEvents w (handleSignalsStep env sig w) ∧
    Event.shutdown ∉ newEvents w (handleSignalsStep env sig w) ∧
    newEvents w (handleSignalsStep env sig w) =
      [Event.signalHooks Phase.PRE_SIGNAL sig,
       Event.logPrintf "Received %v: nothing i care about...\n" [LogArg.sig sig],
       Event.signalHooks Phase.POST_SIGNAL sig] ∧
    (handleSignalsStep env sig w).srv = w.srv ∧
    (handleSignalsStep env sig w).heap = w.heap := by
  have hn : sig ∉ HookableSignals := by
    simp [HookableSignals, h1, h2, h3]
  have hp : w.srv.rest.SignalHooks Phase.PRE_SIGNAL sig = [] := htable _ _ hn
  have hq : w.srv.rest.SignalHooks Phase.POST_SIGNAL sig = [] := htable _ _ hn
  have ht : (handleSignalsStep env sig w).trace = w.trace ++
      [Event.signalHooks Phase.PRE_SIGNAL sig,
       Event.logPrintf "Received %v: nothing i care about...\n" [LogArg.sig sig],
       Event.signalHooks Phase.POST_SIGNAL sig] := by
    simp [handleSignalsStep, handleSignalsSwitch, callSignalHooks, World.emit, World.setRest,
      h1, h2, h3]
  have hr : (handleSignalsStep env sig w).srv.rest =
      signalHooks runHook Phase.POST_SIGNAL sig
        (signalHooks runHook Phase.PRE_SIGNAL sig w.srv.rest) := by
    simp [handleSignalsStep, handleSignalsSwitch, callSignalHooks, World.emit, World.setRest,
      h1, h2, h3, henv]
  have e1 : signalHooks runHook Phase.PRE_SIGNAL sig w.srv.rest = w.srv.rest :=
    signalHooks_none runHook _ _ _ hp
  have e2 : (handleSignalsStep env sig w).srv.rest = w.srv.rest := by
    rw [hr, e1]; exact signalHooks_none runHook _ _ _ hq
  have e3 : (handleSignalsStep env sig w).srv =
      { w.srv with rest := (handleSignalsStep env sig w).srv.rest } := by
    simp [handleSignalsStep, handleSignalsSwitch, callSignalHooks, World.emit, World.setRest,
      h1, h2, h3]
  rw [newEvents_append w _ _ ht]
  refine ⟨by rw [e2], by simp, by simp, rfl, by rw [e3, e2], ?_⟩
  simp [handleSignalsStep, handleSignalsSwitch, callSignalHooks, World.emit, World.setRest,
    h1, h2, h3]

/-- Witness for C4: the sample table holds hooks for SIGHUP and SIGINT only; a
delivery of signal number 3 runs no hook, calls neither `fork` nor `shutdown`,
and leaves the server as it was. -/
theorem handleSignals_unknown_signal_witness :
    (⟨3⟩ : Signal) ≠ SIGHUP ∧ (⟨3⟩ : Signal) ≠ SIGINT ∧ (⟨3⟩ : Signal) ≠ SIGTERM ∧
    (handleSignalsStep (sampleEnv true true true) ⟨3⟩
      (sampleWorld ":8080" none)).srv.rest.invoked = [] ∧
    Event.fork ∉ newEvents (sampleWorld ":8080" none)
      (handleSignalsStep (sampleEnv true true true) ⟨3⟩ (sampleWorld ":8080" none)) ∧
    Event.shutdown ∉ newEvents (sampleWorld ":8080" none)
      (handleSignalsStep (sampleEnv true true true) ⟨3⟩ (sampleWorld ":8080" none)) ∧
    (handleSignalsStep (sampleEnv true true true) ⟨3⟩ (sampleWorld ":8080" none)).srv =
      (sampleWorld ":8080" none).srv :=
  have h := handleSignals_unknown_signal (sampleEnv true true true) (fun _ s => s)
    (sampleWorld ":8080" none) ⟨3⟩ (fun _ _ _ _ => rfl) sampleHooks_only_hookable
    (by decide) (by decide) (by decide)
  ⟨by decide, by decide, by decide, h.1, h.2.1, h.2.2.1, h.2.2.2.2.1⟩

/-- Counterexample for C5: in the Windows build a delivery of SIGHUP does call
`fork`; with a launch that succeeds a successor process is started. -/
theorem windows_reload_calls_fork :
    SIGHUP ∈ HookableSignals ∧
    Event.fork ∈ newEvents (sampleWorld ":8080" none)
      (handleSignalsStep (sampleEnv true true true) SIGHUP (sampleWorld ":8080" none)) ∧
    (sampleWorld ":8080" none).srv.rest.inner.successors = 0 ∧
    (handleSignalsStep (sampleEnv true true true) SIGHUP
      (sampleWorld ":8080" none)).srv.rest.inner.successors = 1 ∧
    ¬ (Event.fork ∉ newEvents (sampleWorld ":8080" none)
      (handleSignalsStep (sampleEnv true true true) SIGHUP (sampleWorld ":8080" none))) := by
  refine ⟨by decide, by decide, rfl, by decide, ?_⟩
  intro h
  exact h (by decide)

/-- C5, amended. In the Windows build SIGHUP is a hookable signal and its delivery
calls `srv.fork()` exactly once, between the pre and the post hooks, and never
`srv.shutdown()`: the state after the built-in action is the one `fork` returns.
Over all signals, `fork` is called exactly for SIGHUP and `shutdown` exactly for
SIGINT and SIGTERM. -/
theorem handleSignals_windows_reload {σ : Type} (env : Env σ) (w : World σ) (sig : Signal) :
    SIGHUP ∈ HookableSignals ∧
    dispatchEvents (newEvents w (handleSignalsStep env SIGHUP w)) =
      [Event.signalHooks Phase.PRE_SIGNAL SIGHUP, Event.fork,
       Event.signalHooks Phase.POST_SIGNAL SIGHUP] ∧
    (newEvents w (handleSignalsStep env SIGHUP w)).count Event.fork = 1 ∧
    Event.shutdown ∉ newEvents w (handleSignalsStep env SIGHUP w) ∧
    (handleSignalsSwitch env SIGHUP w).srv.rest = (env.fork w.srv w.heap).1 ∧
    (Event.fork ∈ newEvents w (handleSignalsStep env sig w) ↔ sig = SIGHUP) ∧
    (Event.shutdown ∈ newEvents w (handleSignalsStep env sig w) ↔
      sig = SIGINT ∨ sig = SIGTERM) := by
  have mem : ∀ (e : Event) (d : List Event), isDispatchEvent e = true →
      (e ∈ d ↔ e ∈ dispatchEvents d) := by
    intro e d he
    simp [dispatchEvents, List.mem_filter, he]
  have cnt : ∀ (e : Event) (d : List Event), isDispatchEvent e = true →
      d.count e = (dispatchEvents d).count e := by
    intro e d he
    simp only [dispatchEvents, List.count]
    rw [List.countP_filter]
    apply List.countP_congr
    intro x _
    by_cases hx : x = e
    · subst hx; simp [he]
    · simp [hx]
  have step : ∀ s : Signal,
      dispatchEvents (newEvents w (handleSignalsStep env s w)) = deliveryTrace s := by
    intro s
    obtain ⟨d, hd, hdd⟩ := handleSignalsStep_trace env s w
    rw [newEvents_append w _ d hd, hdd]
  have i1 : SIGINT ≠ SIGHUP := by decide
  have i2 : SIGTERM ≠ SIGHUP := by decide
  refine ⟨by decide, ?_, ?_, ?_, ?_, ?_, ?_⟩
  · rw [step]; decide
  · rw [cnt Event.fork _ rfl, step]; decide
  · rw [mem Event.shutdown _ rfl, step]; decide
  · cases hf : (env.fork w.srv w.heap).2 <;>
      simp [handleSignalsSwitch, World.emit, World.setRest, hf]
  · rw [mem Event.fork _ rfl, step]
    by_cases hs : sig = SIGHUP
    · simp [deliveryTrace, builtinAction, hs]
    · by_cases hs2 : sig = SIGINT ∨ sig = SIGTERM <;>
        simp [deliveryTrace, builtinAction, hs, hs2]
  · rw [mem Event.shutdown _ rfl, step]
    by_cases hs : sig = SIGHUP
    · subst hs
      simp [deliveryTrace, builtinAction, i1.symm, i2.symm]
    · by_cases hs2 : sig = SIGINT ∨ sig = SIGTERM <;>
        simp [deliveryTrace, builtinAction, hs, hs2]

/-! ## The entry points -/

/-- C6. Startup failures are returned and serving does not begin.  In
`ListenAndServeTLS`, when the key pair fails to load, that error is returned and
the only event is the load: the dispatcher is not started and `getListener` is
not called.  In `ListenAndServe` and in `ListenAndServeTLS`, when `getListener`
fails, that same error is returned after being logged, `srv.EndlessListener` is
not assigned, and neither `BeforeBegin` nor `Serve` is called. -/
theorem startup_failure_is_returned {σ : Type} (env : Env σ) (w : World σ)
    (certFile keyFile : String) (e : Err) :
    ((env.LoadX509KeyPair certFile keyFile).2 = some e →
      (ListenAndServeTLS env certFile keyFile w).2 = some e ∧
      newEvents w (ListenAndServeTLS env certFile keyFile w).1 =
        [Event.LoadX509KeyPair certFile keyFile] ∧
      Event.goHandleSignals ∉ newEvents w (ListenAndServeTLS env certFile keyFile w).1 ∧
      (∀ a, Event.getListener a ∉ newEvents w (ListenAndServeTLS env certFile keyFile w).1) ∧
      Event.Serve ∉ newEvents w (ListenAndServeTLS env certFile keyFile w).1 ∧
      (ListenAndServeTLS env certFile keyFile w).1.srv = w.srv) ∧
    ((env.getListener (addrOr ":http" w.srv.Addr) w.srv w.heap).2 = Except.error e →
      (ListenAndServe env w).2 = some e ∧
      newEvents w (ListenAndServe env w).1 =
        [Event.goHandleSignals, Event.getListener (addrOr ":http" w.srv.Addr),
         Event.logPrintln [LogArg.err e]] ∧
      (ListenAndServe env w).1.srv.EndlessListener = w.srv.EndlessListener ∧
      (∀ l, Event.setEndlessListener l ∉ newEvents w (ListenAndServe env w).1) ∧
      (∀ a, Event.BeforeBegin a ∉ newEvents w (ListenAndServe env w).1) ∧
      Event.Serve ∉ newEvents w (ListenAndServe env w).1) ∧
    ((env.LoadX509KeyPair certFile keyFile).2 = none →
      (env.getListener (addrOr ":https" w.srv.Addr) w.srv
        (tlsPrepareConfig env certFile keyFile w.srv w.heap).1).2 = Except.error e →
      (ListenAndServeTLS env certFile keyFile w).2 = some e ∧
      newEvents w (ListenAndServeTLS env certFile keyFile w).1 =
        [Event.LoadX509KeyPair certFile keyFile, Event.goHandleSignals,
         Event.getListener (addrOr ":https" w.srv.Addr), Event.logPrintln [LogArg.err e]] ∧
      (ListenAndServeTLS env certFile keyFile w).1.srv.EndlessListener =
        w.srv.EndlessListener ∧
      (ListenAndServeTLS env certFile keyFile w).1.srv.tlsInnerListener =
        w.srv.tlsInnerListener ∧
      (∀ l, Event.setEndlessListener l ∉
        newEvents w (ListenAndServeTLS env certFile keyFile w).1) ∧
      Event.Serve ∉ newEvents w (ListenAndServeTLS env certFile keyFile w).1) := by
  refine ⟨?_, ?_, ?_⟩
  · intro h
    obtain ⟨h1, h2, h3, _⟩ := ListenAndServeTLS_cert_error env w certFile keyFile e h
    rw [newEvents_append w _ _ h2]
    exact ⟨h1, rfl, by simp, by simp, by simp, h3⟩
  · intro h
    obtain ⟨h1, h2, h3, _⟩ := ListenAndServe_error env w e h
    rw [newEvents_append w _ _ h2]
    exact ⟨h1, rfl, h3, by simp, by simp, by simp⟩
  · intro hc h
    obtain ⟨h1, h2, h3, h4, _⟩ := ListenAndServeTLS_listen_error env w certFile keyFile e hc h
    rw [newEvents_append w _ _ h2]
    exact ⟨h1, rfl, h3, h4, by simp, by simp⟩

/-- Witness for C6: a key pair that does not load, and a bind that fails in each
of the two entry points. -/
theorem startup_failure_is_returned_witness :
    (ListenAndServeTLS (sampleEnv false true true) "cert.pem" "key.pem"
      (sampleWorld ":8443" (some 0))).2 = some "bad key pair" ∧
    (ListenAndServe (sampleEnv true false true) (sampleWorld ":8080" none)).2 =
      some "bind failed" ∧
    (ListenAndServeTLS (sampleEnv true false true) "cert.pem" "key.pem"
      (sampleWorld ":8443" (some 0))).2 = some "bind failed" :=
  ⟨((startup_failure_is_returned (sampleEnv false true true) (sampleWorld ":8443" (some 0))
      "cert.pem" "key.pem" "bad key pair").1 rfl).1,
   ((startup_failure_is_returned (sampleEnv true false true) (sampleWorld ":8080" none)
      "cert.pem" "key.pem" "bind failed").2.1 rfl).1,
   ((startup_failure_is_returned (sampleEnv true false true) (sampleWorld ":8443" (some 0))
      "cert.pem" "key.pem" "bind failed").2.2 rfl rfl).1⟩

/-- C7. The address passed to `getListener` is `srv.Addr` when that is not
blank; when it is blank, the address is ":http" in `ListenAndServe` and ":https"
in `ListenAndServeTLS` (which reaches `getListener` once the key pair is loaded). -/
theorem getListener_address {σ : Type} (env : Env σ) (w : World σ)
    (certFile keyFile : String) :
    (w.srv.Addr ≠ "" → ∀ a,
      Event.getListener a ∈ newEvents w (ListenAndServe env w).1 ↔ a = w.srv.Addr) ∧
    (w.srv.Addr = "" → ∀ a,
      Event.getListener a ∈ newEvents w (ListenAndServe env w).1 ↔ a = ":http") ∧
    ((env.LoadX509KeyPair certFile keyFile).2 = none → w.srv.Addr ≠ "" → ∀ a,
      Event.getListener a ∈ newEvents w (ListenAndServeTLS env certFile keyFile w).1 ↔
        a = w.srv.Addr) ∧
    ((env.LoadX509KeyPair certFile keyFile).2 = none → w.srv.Addr = "" → ∀ a,
      Event.getListener a ∈ newEvents w (ListenAndServeTLS env certFile keyFile w).1 ↔
        a = ":https") := by
  have plain : ∀ a, Event.getListener a ∈ newEvents w (ListenAndServe env w).1 ↔
      a = addrOr ":http" w.srv.Addr := by
    intro a
    cases hl : (env.getListener (addrOr ":http" w.srv.Addr) w.srv w.heap).2 with
    | error e =>
      rw [newEvents_append w _ _ (ListenAndServe_error env w e hl).2.1]; simp
    | ok l =>
      rw [newEvents_append w _ _ (ListenAndServe_ok env w l hl).1]; simp
  have secure : (env.LoadX509KeyPair certFile keyFile).2 = none → ∀ a,
      Event.getListener a ∈ newEvents w (ListenAndServeTLS env certFile keyFile w).1 ↔
        a = addrOr ":https" w.srv.Addr := by
    intro hc a
    cases hl : (env.getListener (addrOr ":https" w.srv.Addr) w.srv
        (tlsPrepareConfig env certFile keyFile w.srv w.heap).1).2 with
    | error e =>
      rw [newEvents_append w _ _
        (ListenAndServeTLS_listen_error env w certFile keyFile e hc hl).2.1]; simp
    | ok l =>
      rw [newEvents_append w _ _ (ListenAndServeTLS_ok env w certFile keyFile l hc hl).1]; simp
  refine ⟨?_, ?_, ?_, ?_⟩
  · intro h a; rw [plain a]; simp [addrOr, h]
  · intro h a; rw [plain a]; simp [addrOr, h]
  · intro hc h a; rw [secure hc a]; simp [addrOr, h]
  · intro hc h a; rw [secure hc a]; simp [addrOr, h]

/-- Witness for C7: the address ":8080" is passed on as it is, and a blank address
becomes ":http" in `ListenAndServe` and ":https" in `ListenAndServeTLS`. -/
theorem getListener_address_witness :
    Event.getListener ":8080" ∈ newEvents (sampleWorld ":8080" none)
      (ListenAndServe (sampleEnv true true true) (sampleWorld ":8080" none)).1 ∧
    Event.getListener ":http" ∈ newEvents (sampleWorld "" none)
      (ListenAndServe (sampleEnv true true true) (sampleWorld "" none)).1 ∧
    Event.getListener ":8443" ∈ newEvents (sampleWorld ":8443" none)
      (ListenAndServeTLS (sampleEnv true true true) "cert.pem" "key.pem"
        (sampleWorld ":8443" none)).1 ∧
    Event.getListener ":https" ∈ newEvents (sampleWorld "" none)
      (ListenAndServeTLS (sampleEnv true true true) "cert.pem" "key.pem"
        (sampleWorld "" none)).1 :=
  ⟨((getListener_address (sampleEnv true true true) (sampleWorld ":8080" none)
      "cert.pem" "key.pem").1 (by decide) ":8080").2 rfl,
   ((getListener_address (sampleEnv true true true) (sampleWorld "" none)
      "cert.pem" "key.pem").2.1 rfl ":http").2 rfl,
   ((getListener_address (sampleEnv true true true) (sampleWorld ":8443" none)
      "cert.pem" "key.pem").2.2.1 rfl (by decide) ":8443").2 rfl,
   ((getListener_address (sampleEnv true true true) (sampleWorld "" none)
      "cert.pem" "key.pem").2.2.2 rfl rfl ":https").2 rfl⟩

/-- C8. When `ListenAndServeTLS` loads the key pair, the protocol list of the
private configuration it builds is the list of the caller when `srv.TLSConfig`
supplies one, and the single protocol "http/1.1" when `srv.TLSConfig` is nil or
its list is nil; the default list contains "http/1.1".  When the listener opens,
that configuration is the one given to the TLS listener installed on the server. -/
theorem ListenAndServeTLS_NextProtos {σ : Type} (env : Env σ) (w : World σ)
    (certFile keyFile : String)
    (hc : (env.LoadX509KeyPair certFile keyFile).2 = none) :
    (∀ l, (env.getListener (addrOr ":https" w.srv.Addr) w.srv
        (tlsPrepareConfig env certFile keyFile w.srv w.heap).1).2 = Except.ok l →
      (ListenAndServeTLS env certFile keyFile w).1.srv.EndlessListener =
        some (Listener.tls (Listener.endless l) w.heap.configs.length) ∧
      Event.setEndlessListener (Listener.tls (Listener.endless l) w.heap.configs.length) ∈
        newEvents w (ListenAndServeTLS env certFile keyFile w).1) ∧
    (∀ p ps, w.srv.TLSConfig = some p → (w.heap.loadConfig p).NextProtos = some ps →
      ((ListenAndServeTLS env certFile keyFile w).1.heap.loadConfig
        w.heap.configs.length).NextProtos = some ps) ∧
    (∀ p, w.srv.TLSConfig = some p → (w.heap.loadConfig p).NextProtos = none →
      ((ListenAndServeTLS env certFile keyFile w).1.heap.loadConfig
        w.heap.configs.length).NextProtos = some ["http/1.1"]) ∧
    (w.srv.TLSConfig = none →
      ((ListenAndServeTLS env certFile keyFile w).1.heap.loadConfig
        w.heap.configs.length).NextProtos = some ["http/1.1"]) ∧
    "http/1.1" ∈ expectedNextProtos Config.zero := by
  rw [(ListenAndServeTLS_frame env w certFile keyFile).1, prepared_loadConfig_fresh]
  refine ⟨?_, ?_, ?_, ?_, by simp [expectedNextProtos, Config.zero]⟩
  · intro l hl
    obtain ⟨h1, h2, _⟩ := ListenAndServeTLS_ok env w certFile keyFile l hc hl
    rw [newEvents_append w _ _ h1]
    exact ⟨h2, by simp⟩
  · intro p ps hp hn
    simp [privateConfig, expectedNextProtos, userConfig, hp, hn]
  · intro p hp hn
    simp [privateConfig, expectedNextProtos, userConfig, hp, hn]
  · intro hp
    simp [privateConfig, expectedNextProtos, userConfig, hp, Config.zero]

/-- Witness for C8: with a caller configuration that lists "h2" and "http/1.1" the
TLS listener is built on the configuration at address 1, which has that list;
with no caller configuration the list is "http/1.1". -/
theorem ListenAndServeTLS_NextProtos_witness :
    (ListenAndServeTLS (sampleEnv true true true) "cert.pem" "key.pem"
        (sampleWorld ":8443" (some 0))).1.srv.EndlessListener =
      some (Listener.tls (Listener.endless (Listener.net 7)) 1) ∧
    ((ListenAndServeTLS (sampleEnv true true true) "cert.pem" "key.pem"
        (sampleWorld ":8443" (some 0))).1.heap.loadConfig 1).NextProtos =
      some ["h2", "http/1.1"] ∧
    ((ListenAndServeTLS (sampleEnv true true true) "cert.pem" "key.pem"
        (sampleWorld ":8443" none)).1.heap.loadConfig 1).NextProtos =
      some ["http/1.1"] :=
  ⟨((ListenAndServeTLS_NextProtos (sampleEnv true true true) (sampleWorld ":8443" (some 0))
      "cert.pem" "key.pem" rfl).1 (Listener.net 7) rfl).1,
   (ListenAndServeTLS_NextProtos (sampleEnv true true true) (sampleWorld ":8443" (some 0))
      "cert.pem" "key.pem" rfl).2.1 0 ["h2", "http/1.1"] rfl rfl,
   (ListenAndServeTLS_NextProtos (sampleEnv true true true) (sampleWorld ":8443" none)
      "cert.pem" "key.pem" rfl).2.2.2.1 rfl⟩

/-- C9, the behaviour of the code. `ListenAndServeTLS` never calls `srv.BeforeBegin`,
on any path; on the sample server, with the key pair loaded and the listener
open, it logs the process id and the address and goes on to `Serve`, where
`ListenAndServe` on the same server calls `BeforeBegin` once, after the listener
is installed and before `Serve`. -/
theorem ListenAndServeTLS_skips_BeforeBegin {σ : Type} (env : Env σ) (w : World σ)
    (certFile keyFile : String) :
    (∀ a, Event.BeforeBegin a ∉ newEvents w (ListenAndServeTLS env certFile keyFile w).1) ∧
    newEvents (sampleWorld ":8443" (some 0))
        (ListenAndServeTLS (sampleEnv true true true) "cert.pem" "key.pem"
          (sampleWorld ":8443" (some 0))).1 =
      [Event.LoadX509KeyPair "cert.pem" "key.pem", Event.goHandleSignals,
       Event.getListener ":8443",
       Event.setTlsInnerListener (Listener.endless (Listener.net 7)),
       Event.setEndlessListener (Listener.tls (Listener.endless (Listener.net 7)) 1),
       Event.logPrintln [LogArg.int 4242, LogArg.str ":8443"],
       Event.Serve] ∧
    newEvents (sampleWorld ":8443" (some 0))
        (ListenAndServe (sampleEnv true true true) (sampleWorld ":8443" (some 0))).1 =
      [Event.goHandleSignals, Event.getListener ":8443",
       Event.setEndlessListener (Listener.endless (Listener.net 7)),
       Event.BeforeBegin ":8443",
       Event.Serve] := by
  refine ⟨?_, by decide, by decide⟩
  intro a
  cases hc : (env.LoadX509KeyPair certFile keyFile).2 with
  | some e =>
    rw [newEvents_append w _ _ (ListenAndServeTLS_cert_error env w certFile keyFile e hc).2.1]
    simp
  | none =>
    cases hl : (env.getListener (addrOr ":https" w.srv.Addr) w.srv
        (tlsPrepareConfig env certFile keyFile w.srv w.heap).1).2 with
    | error e =>
      rw [newEvents_append w _ _
        (ListenAndServeTLS_listen_error env w certFile keyFile e hc hl).2.1]
      simp
    | ok l =>
      rw [newEvents_append w _ _ (ListenAndServeTLS_ok env w certFile keyFile l hc hl).1]
      simp

/-- C10. `ListenAndServeTLS` leaves the configuration of the caller as it was: for
a server whose `srv.TLSConfig` points to an object of the heap, after the call
(on every path) the pointer is the same, the object it points to is the same,
and every backing array that existed before, so every element of the caller's
certificate slice, is the same.  The heap has grown by exactly two objects: the
private configuration, a copy of the caller's with the protocol list defaulted,
and the backing array of its certificate slice, which has one element, the
loaded key pair. -/
theorem ListenAndServeTLS_keeps_user_config {σ : Type} (env : Env σ) (w : World σ)
    (certFile keyFile : String) (p : Nat)
    (hp : w.srv.TLSConfig = some p) (hv : p < w.heap.configs.length) :
    (ListenAndServeTLS env certFile keyFile w).1.srv.TLSConfig = some p ∧
    (ListenAndServeTLS env certFile keyFile w).1.heap.loadConfig p = w.heap.loadConfig p ∧
    (∀ s : CertSlice, s.arr < w.heap.certArrays.length →
      (ListenAndServeTLS env certFile keyFile w).1.heap.certsOf s = w.heap.certsOf s) ∧
    (ListenAndServeTLS env certFile keyFile w).1.heap.configs =
      w.heap.configs ++ [privateConfig (w.heap.loadConfig p) w.heap.certArrays.length] ∧
    (ListenAndServeTLS env certFile keyFile w).1.heap.certArrays =
      w.heap.certArrays ++ [[(env.LoadX509KeyPair certFile keyFile).1]] ∧
    p ≠ w.heap.configs.length ∧
    ((ListenAndServeTLS env certFile keyFile w).1.heap.loadConfig
        w.heap.configs.length).Certificates = some ⟨w.heap.certArrays.length, 0, 1⟩ ∧
    (ListenAndServeTLS env certFile keyFile w).1.heap.certsOf
        ⟨w.heap.certArrays.length, 0, 1⟩ = [(env.LoadX509KeyPair certFile keyFile).1] ∧
    ((ListenAndServeTLS env certFile keyFile w).1.heap.loadConfig
        w.heap.configs.length).NextProtos = some (expectedNextProtos (w.heap.loadConfig p)) ∧
    ((ListenAndServeTLS env certFile keyFile w).1.heap.loadConfig
        w.heap.configs.length).others = (w.heap.loadConfig p).others := by
  obtain ⟨hh, ht⟩ := ListenAndServeTLS_frame env w certFile keyFile
  have hu : userConfig w.srv w.heap = w.heap.loadConfig p := by simp [userConfig, hp]
  have hfresh := prepared_loadConfig_fresh env certFile keyFile w.srv w.heap
  rw [hh]
  rw [hfresh, hu]
  rw [tlsPrepareConfig_eq, hu]
  refine ⟨by rw [ht, hp], ?_, ?_, rfl, rfl, Nat.ne_of_lt hv, rfl, ?_, rfl, rfl⟩
  · simp [Heap.loadConfig, List.getElem?_append_left hv]
  · intro s hs
    simp [Heap.certsOf, List.getElem?_append_left hs]
  · simp [Heap.certsOf]

/-- Witness for C10: on the sample server the caller's configuration at address 0
and its two certificates are as before, and the private copy at address 1 holds
the single loaded key pair. -/
theorem ListenAndServeTLS_keeps_user_config_witness :
    (ListenAndServeTLS (sampleEnv true true true) "cert.pem" "key.pem"
        (sampleWorld ":8443" (some 0))).1.heap.loadConfig 0 =
      { NextProtos := some ["h2", "http/1.1"], Certificates := some ⟨0, 0, 2⟩, others := 5 } ∧
    (ListenAndServeTLS (sampleEnv true true true) "cert.pem" "key.pem"
        (sampleWorld ":8443" (some 0))).1.heap.certsOf ⟨0, 0, 2⟩ = [⟨11⟩, ⟨12⟩] ∧
    (ListenAndServeTLS (sampleEnv true true true) "cert.pem" "key.pem"
        (sampleWorld ":8443" (some 0))).1.heap.certsOf ⟨1, 0, 1⟩ = [⟨42⟩] :=
  have h := ListenAndServeTLS_keeps_user_config (sampleEnv true true true)
    (sampleWorld ":8443" (some 0)) "cert.pem" "key.pem" 0 rfl (by decide)
  ⟨h.2.1.trans rfl, (h.2.2.1 ⟨0, 0, 2⟩ (by decide)).trans rfl, h.2.2.2.2.2.2.2.1⟩

end Endless
